import Mathlib

/-!
Verification of the `cxx_ros2_dataflow/run.rs` build-and-run orchestrator.

The source program is a linear pipeline of external effects: tracing setup,
a Windows early exit, working-directory setup, build-directory creation,
a cargo build of the bridge package, four file copies, three path
canonicalizations, one clang++ invocation, and one cargo-run handoff.

We embed it as a function from an `Env` (the outcome every external
operation would have) to an `Outcome` (ok, error value, or panic) paired
with the list of external `Event`s the run performed, in order.
-/

set_option maxHeartbeats 1600000

namespace RunPipeline

/-- Host operating-system tag, as distinguished by the compile-time
configuration checks (`cfg!(windows)`, `#[cfg(target_os = ...)]`) in the
source. -/
inductive OS where
  | linux
  | macos
  | windows
  deriving DecidableEq

/-- Filesystem path: an absolute flag plus a component list, mirroring the
`std::path::Path` operations the source uses (`new`, `join`, `parent`). -/
structure Path where
  absolute : Bool
  components : List String
  deriving DecidableEq

/-- A relative path made of the given components (`Path::new` on a
relative string). -/
def Path.rel (cs : List String) : Path := ⟨false, cs⟩

/-- Rust `Path::join`: an absolute right operand replaces the left one,
otherwise components are appended. -/
def Path.join (p q : Path) : Path :=
  if q.absolute then q else ⟨p.absolute, p.components ++ q.components⟩

/-- Rust `Path::parent`: `none` for an empty or root path, otherwise the
path without its final component. -/
def Path.parent (p : Path) : Option Path :=
  match p.components with
  | [] => none
  | c :: cs => some ⟨p.absolute, (c :: cs).dropLast⟩

/-- Display form of a path, used when the path is passed as a process
argument. -/
def Path.render (p : Path) : String :=
  (if p.absolute then "/" else "") ++ String.intercalate "/" p.components

/-- Log level of a tracing statement. -/
inductive Level where
  | error
  | warn
  | info
  deriving DecidableEq

/-- One observable external effect of the pipeline, in the order the run
performed them.  The three spawn constructors record the three process
call sites of the source (`cargo build`, `clang++`, `cargo run`). -/
inductive Event where
  | setTracing (name : String)
  | log (lvl : Level) (msg : String)
  | setCwd (dir : Path)
  | createDir (dir : Path)
  | spawnBuild (prog : String) (args : List String)
  | copy (src dst : Path)
  | canon (p : Path)
  | spawnCompile (prog : String) (args : List String) (cwd : Option Path)
  | spawnRun (prog : String) (args : List String)
  deriving DecidableEq

/-- Error value surfaced by the pipeline: a raw io/process error, a
`bail!` message, or a `wrap_err` context layered on an inner error. -/
inductive Err where
  | io (m : String)
  | msg (m : String)
  | wrapped (ctx : String) (e : Err)
  deriving DecidableEq

/-- Context strings layered on an error by `wrap_err`. -/
def Err.contexts : Err → List String
  | .wrapped c e => c :: e.contexts
  | _ => []

/-- Every message string carried by an error (contexts plus the base
message). -/
def Err.strings : Err → List String
  | .io m => [m]
  | .msg m => [m]
  | .wrapped c e => c :: e.strings

/-- Result of running (part of) the pipeline: normal return, an error
propagated with `?`, or an abrupt panic (`unwrap` failure / out-of-bounds
index). -/
inductive Outcome (α : Type) where
  | ok (a : α)
  | err (e : Err)
  | panicked (m : String)
  deriving DecidableEq

/-- Whether the outcome is a typed error value surfaced to the caller
(as opposed to a normal return or an abrupt panic). -/
def Outcome.isTypedErr {α : Type} : Outcome α → Bool
  | .err _ => true
  | _ => false

/-- A finished computation: its outcome and the trace of events performed
so far (the caller's trace with this computation's events appended). -/
def Res (α : Type) : Type := Outcome α × List Event

instance {α : Type} [DecidableEq α] : DecidableEq (Res α) :=
  inferInstanceAs (DecidableEq (Outcome α × List Event))

/-- The outcomes the external world would give every operation: one field
per kind of external call, keyed by the call's arguments. -/
structure Env where
  os : OS
  manifestDir : Path
  tracingResult : Except String Unit
  setCwdResult : Path → Except String Unit
  createDirResult : Path → Except String Unit
  cargo : Option String
  copyResult : Path → Path → Except String Unit
  canonResult : Path → Except String Path
  statusResult : String → List String → Option Path → Except String Nat

/-- Sequencing with `?`-propagation: run the continuation only on a
normal return, otherwise keep the error or panic. -/
def step {α β : Type} (r : Res α) (f : α → List Event → Res β) : Res β :=
  match r with
  | (.ok a, t) => f a t
  | (.err e, t) => (.err e, t)
  | (.panicked m, t) => (.panicked m, t)

/-- `wrap_err`: layer a context message on the error, leaving normal
returns and panics unchanged. -/
def wrapErr {α : Type} (r : Res α) (ctx : String) : Res α :=
  match r with
  | (.err e, t) => (.err (.wrapped ctx e), t)
  | r => r

/-- Lift an external operation's result to an outcome (`?` turns the io
error into a propagated error). -/
def ofExcept {α : Type} : Except String α → Outcome α
  | .ok a => .ok a
  | .error m => .err (.io m)

/-- Generic external operation: record its event and lift its result. -/
def opGen {α : Type} (r : Except String α) (ev : Event) (t : List Event) : Res α :=
  (ofExcept r, t ++ [ev])

def opSetTracing (env : Env) (name : String) (t : List Event) : Res Unit :=
  opGen env.tracingResult (.setTracing name) t

def opSetCwd (env : Env) (d : Path) (t : List Event) : Res Unit :=
  opGen (env.setCwdResult d) (.setCwd d) t

def opCreateDir (env : Env) (d : Path) (t : List Event) : Res Unit :=
  opGen (env.createDirResult d) (.createDir d) t

def opCopy (env : Env) (src dst : Path) (t : List Event) : Res Unit :=
  opGen (env.copyResult src dst) (.copy src dst) t

def opCanon (env : Env) (p : Path) (t : List Event) : Res Path :=
  opGen (env.canonResult p) (.canon p) t

def opSpawnBuild (env : Env) (prog : String) (args : List String) (t : List Event) : Res Nat :=
  opGen (env.statusResult prog args none) (.spawnBuild prog args) t

def opSpawnCompile (env : Env) (prog : String) (args : List String) (cwd : Option Path)
    (t : List Event) : Res Nat :=
  opGen (env.statusResult prog args cwd) (.spawnCompile prog args cwd) t

def opSpawnRun (env : Env) (prog : String) (args : List String) (t : List Event) : Res Nat :=
  opGen (env.statusResult prog args none) (.spawnRun prog args) t

/-- Panic message of `Result::unwrap` on the absent `CARGO` environment
variable. -/
def unwrapEnvMsg : String := "called Result::unwrap() on an Err value: NotPresent"

/-- Panic message of indexing `paths[0]` on an empty slice. -/
def indexPanicMsg : String := "index out of bounds: the len is 0 but the index is 0"

/-- Argument list of the `cargo build` invocation (source lines 67-72). -/
def buildPackageArgs (package : String) (features : List String) : List String :=
  ["build", "--package", package] ++
    (if features.isEmpty then [] else ["--features", String.intercalate "," features])

/-- Embedding of `build_package` (source lines 65-77): unwraps the
`CARGO` variable, spawns the build command, and bails naming the package
on a non-zero exit. -/
def build_package (env : Env) (package : String) (features : List String)
    (t : List Event) : Res Unit :=
  match env.cargo with
  | none => (.panicked unwrapEnvMsg, t)
  | some cargo =>
    step (opSpawnBuild env cargo (buildPackageArgs package features) t) fun code t =>
      if code = 0 then (.ok (), t)
      else (.err (.msg ("failed to compile " ++ package)), t)

/-- Platform link flags added by the `#[cfg(target_os = ...)]` blocks of
`build_cxx_node` (source lines 88-136), one argument per list entry. -/
def platformLinkFlags : OS → List String
  | .linux => ["-l", "m", "-l", "rt", "-l", "dl", "-pthread"]
  | .windows =>
    ["-ladvapi32", "-luserenv", "-lkernel32", "-lws2_32", "-lbcrypt", "-lncrypt",
     "-lschannel", "-lntdll", "-liphlpapi", "-lcfgmgr32", "-lcredui", "-lcrypt32",
     "-lcryptnet", "-lfwpuclnt", "-lgdi32", "-lmsimg32", "-lmswsock", "-lole32",
     "-lopengl32", "-lsecur32", "-lshell32", "-lsynchronization", "-luser32",
     "-lwinspool", "-Wl,-nodefaultlib:libcmt", "-D_DLL", "-lmsvcrt"]
  | .macos =>
    ["-framework", "CoreServices", "-framework", "Security", "-l", "System",
     "-l", "resolv", "-l", "pthread", "-l", "c", "-l", "m"]

/-- `std::env::consts::EXE_SUFFIX` of the target. -/
def exeSuffix : OS → String
  | .windows => ".exe"
  | _ => ""

/-- Full clang++ argument list assembled by `build_cxx_node` (source
lines 85-141): source paths, the language-standard flag, the platform
link flags, the caller's extra flags, the library search path, and the
output path. -/
def clangArgs (os : OS) (root : Path) (paths : List Path) (outName : String)
    (extra : List String) : List String :=
  paths.map Path.render ++ ["-std=c++17"] ++ platformLinkFlags os ++ extra ++
    ["-L", ((root.join (Path.rel ["target"])).join (Path.rel ["debug"])).render] ++
    ["--output", ((Path.rel ["..", "build"]).join (Path.rel [outName ++ exeSuffix os])).render]

/-- Embedding of `build_cxx_node` (source lines 79-150): builds the
argument list, indexes `paths[0]` for the working directory (panicking on
an empty list, and setting no working directory when the first path has
no parent), spawns clang++, and bails on a non-zero exit. -/
def build_cxx_node (env : Env) (root : Path) (paths : List Path) (outName : String)
    (extra : List String) (t : List Event) : Res Unit :=
  match paths with
  | [] => (.panicked indexPanicMsg, t)
  | p0 :: _ =>
    step (opSpawnCompile env "clang++" (clangArgs env.os root paths outName extra)
        p0.parent t) fun code t =>
      if code = 0 then (.ok (), t)
      else (.err (.msg "failed to compile c++ node"), t)

/-- Argument list of the `cargo run` handoff invocation (source lines
155-160). -/
def runDataflowArgs (dataflow : Path) : List String :=
  ["run", "--package", "dora-cli", "--", "daemon", "--run-dataflow", dataflow.render]

/-- Embedding of `run_dataflow` (source lines 152-165): unwraps the
`CARGO` variable, spawns the dataflow run, and bails on a non-zero
exit. -/
def run_dataflow (env : Env) (dataflow : Path) (t : List Event) : Res Unit :=
  match env.cargo with
  | none => (.panicked unwrapEnvMsg, t)
  | some cargo =>
    step (opSpawnRun env cargo (runDataflowArgs dataflow) t) fun code t =>
      if code = 0 then (.ok (), t)
      else (.err (.msg "failed to run dataflow"), t)

/-- The compile-time `file!()` constant of the source file. -/
def filePathConst : Path :=
  Path.rel ["dora-hardware", "example_test", "cxx_ros2_dataflow", "run.rs"]

/-- The local build/staging directory (`Path::new("build")`). -/
def buildDir : Path := Path.rel ["build"]

/-- The warning printed on the Windows early exit (source lines 10-12). -/
def windowsLogMsg : String :=
  "The c++ example does not work on Windows currently because of a linker error"

/-- `target/cxxbridge/dora-node-api-cxx`, the generation directory the
four artifacts are copied from (source line 25). -/
def nodeCxxbridge (root : Path) : Path :=
  ((root.join (Path.rel ["target"])).join (Path.rel ["cxxbridge"])).join
    (Path.rel ["dora-node-api-cxx"])

/-- The four (source, destination) copy pairs of the artifact staging
step, in source order (source lines 26-45). -/
def copyList (root : Path) : List (Path × Path) :=
  [((nodeCxxbridge root).join (Path.rel ["dora-node-api.cc"]),
      buildDir.join (Path.rel ["dora-node-api.cc"])),
   ((nodeCxxbridge root).join (Path.rel ["dora-node-api.h"]),
      buildDir.join (Path.rel ["dora-node-api.h"])),
   ((nodeCxxbridge root).join (Path.rel ["dora-ros2-bindings.cc"]),
      buildDir.join (Path.rel ["dora-ros2-bindings.cc"])),
   ((nodeCxxbridge root).join (Path.rel ["dora-ros2-bindings.h"]),
      buildDir.join (Path.rel ["dora-ros2-bindings.h"]))]

/-- Sequential copies with `?`-propagation: each pair in order, stopping
at the first failure (source lines 26-45). -/
def copyAll (env : Env) : List (Path × Path) → List Event → Res Unit
  | [], t => (.ok (), t)
  | (src, dst) :: rest, t =>
    step (opCopy env src dst t) fun _ t => copyAll env rest t

/-- First canonicalized compile input (source line 50). -/
def canonInput1 : Path := (Path.rel ["node-rust-api"]).join (Path.rel ["main.cc"])

/-- Second canonicalized compile input (source line 51). -/
def canonInput2 : Path := buildDir.join (Path.rel ["dora-ros2-bindings.cc"])

/-- Third canonicalized compile input (source line 52). -/
def canonInput3 : Path := buildDir.join (Path.rel ["dora-node-api.cc"])

/-- Extra linker flags passed by `main` to `build_cxx_node` (source line
55). -/
def extraFlagsConst : List String := ["-l", "dora_node_api_cxx"]

/-- The dataflow descriptor path (source line 59). -/
def dataflowPath : Path := Path.rel ["dataflow.yml"]

/-- The tail of `main` from the three canonicalizations on (source lines
47-61): canonicalize the three compile inputs, compile, and hand off. -/
def canonAndOn (env : Env) (t : List Event) : Res Unit :=
  step (opCanon env canonInput1 t) fun c1 t =>
  step (opCanon env canonInput2 t) fun c2 t =>
  step (opCanon env canonInput3 t) fun c3 t =>
  step (build_cxx_node env env.manifestDir [c1, c2, c3] "node_rust_api"
    extraFlagsConst t) fun _ t =>
  run_dataflow env dataflowPath t

/-- The tail of `main` from the artifact staging on (source lines 26-61):
the four copies in order, then the canonicalize/compile/run tail. -/
def stagerAndOn (env : Env) (t : List Event) : Res Unit :=
  step (copyAll env (copyList env.manifestDir) t) fun _ t => canonAndOn env t

/-- Embedding of the body of `main` after the Windows check (source lines
16-62): working-directory setup, build-directory creation, dependency
build, then the staging/compile/run tail, each gated by `?` on its
predecessor. -/
def mainBody (env : Env) (t : List Event) : Res Unit :=
  match (env.manifestDir.join filePathConst).parent with
  | none => (.panicked "called Option::unwrap() on a None value", t)
  | some wd =>
    step (wrapErr (opSetCwd env wd t) "failed to set working dir") fun _ t =>
    step (opCreateDir env buildDir t) fun _ t =>
    step (build_package env "dora-node-api-cxx" ["ros2-bridge"] t) fun _ t =>
    stagerAndOn env t

/-- The Windows check of `main` (source lines 9-14): on Windows, log at
error level and return success; otherwise run the rest of the
pipeline. -/
def mainAfterTracing (env : Env) (t : List Event) : Res Unit :=
  match env.os with
  | .windows => (.ok (), t ++ [.log .error windowsLogMsg])
  | _ => mainBody env t

/-- Embedding of `main` (source lines 6-63): tracing setup wrapped with
context, then the Windows check, then the pipeline body. -/
def main (env : Env) (t : List Event) : Res Unit :=
  step (wrapErr (opSetTracing env "c++-ros2-dataflow-exaple" t)
    "failed to set up tracing") fun _ t =>
    mainAfterTracing env t

/-- The working directory `main` switches to: the parent of the source
file's path under the manifest directory. -/
def workDir (root : Path) : Path :=
  ⟨root.absolute, (root.components ++ filePathConst.components).dropLast⟩

/-- The `cargo build` argument list of the pipeline's single Dependency
Builder call. -/
def bargs : List String := buildPackageArgs "dora-node-api-cxx" ["ros2-bridge"]

/-- The path a canonicalization would yield under the environment (its
input when the environment would fail it, a value never used in that
case). -/
def canonOr (env : Env) (p : Path) : Path :=
  match env.canonResult p with
  | .ok q => q
  | .error _ => p

/-- The argument list of the pipeline's clang++ invocation under the
environment's canonicalization. -/
def pipelineClangArgs (env : Env) : List String :=
  clangArgs env.os env.manifestDir
    [canonOr env canonInput1, canonOr env canonInput2, canonOr env canonInput3]
    "node_rust_api" extraFlagsConst

/-- The complete event list of a fully successful run of the
canonicalize/compile/run tail under the given environment. -/
def canonTrace (env : Env) : List Event :=
  [.canon canonInput1] ++
    ([.canon canonInput2] ++
      ([.canon canonInput3] ++
        ([.spawnCompile "clang++" (pipelineClangArgs env)
            (canonOr env canonInput1).parent] ++
          [.spawnRun (env.cargo.getD "") (runDataflowArgs dataflowPath)])))

/-- The complete event list of a fully successful run of the
staging/compile/run tail under the given environment. -/
def stagerTrace (env : Env) : List Event :=
  (copyList env.manifestDir).map (fun pr => .copy pr.1 pr.2) ++ canonTrace env

/-- The complete event list of a fully successful run of the pipeline
body (everything after the Windows check) under the given environment. -/
def bodyTrace (env : Env) : List Event :=
  [.setCwd (workDir env.manifestDir)] ++
    ([.createDir buildDir] ++
      ([.spawnBuild (env.cargo.getD "") bargs] ++ stagerTrace env))

/-- The complete event list of a fully successful run after the tracing
setup: the Windows branch logs and stops, the others run the body. -/
def afterTracingTrace (env : Env) : List Event :=
  match env.os with
  | .windows => [.log .error windowsLogMsg]
  | _ => bodyTrace env

/-- The complete event list of a fully successful run under the given
environment; every actual run's trace is an initial segment of it. -/
def fullTrace (env : Env) : List Event :=
  [Event.setTracing "c++-ros2-dataflow-exaple"] ++ afterTracingTrace env

/-- `RunsToV x full v`: whatever trace `x` is started with, it appends an
initial segment of `full`, and on a normal return it appends all of
`full` and returns `v`. -/
def RunsToV {α : Type} (x : List Event → Res α) (full : List Event) (v : α) : Prop :=
  ∀ t, ∃ s, (x t).2 = t ++ s ∧ (∃ r, s ++ r = full) ∧
    (∀ a, (x t).1 = .ok a → a = v ∧ s = full)

/-- The working-directory-setup/build-directory stage would fail under
the environment. -/
def stage1Fails (env : Env) : Prop :=
  env.setCwdResult (workDir env.manifestDir) ≠ .ok () ∨
    env.createDirResult buildDir ≠ .ok ()

/-- The Dependency Builder stage would fail under the environment
(absent toolchain variable, io failure, or non-zero exit). -/
def stage2Fails (env : Env) : Prop :=
  match env.cargo with
  | none => True
  | some c => env.statusResult c bargs none ≠ .ok 0

/-- The Artifact Stager stage would fail under the environment (some
listed copy fails). -/
def stage3Fails (env : Env) : Prop :=
  ∃ pr ∈ copyList env.manifestDir, env.copyResult pr.1 pr.2 ≠ .ok ()

/-- The Native Compiler Invoker stage would fail under the environment
(a canonicalization fails, or the compile spawn does not exit 0). -/
def stage4Fails (env : Env) : Prop :=
  (env.canonResult canonInput1).isOk = false ∨
  (env.canonResult canonInput2).isOk = false ∨
  (env.canonResult canonInput3).isOk = false ∨
  env.statusResult "clang++" (pipelineClangArgs env)
      (canonOr env canonInput1).parent ≠ .ok 0

def Event.isSetCwd : Event → Bool
  | .setCwd _ => true
  | _ => false

def Event.isCreateDir : Event → Bool
  | .createDir _ => true
  | _ => false

def Event.isBuildSpawn : Event → Bool
  | .spawnBuild _ _ => true
  | _ => false

def Event.isCopy : Event → Bool
  | .copy _ _ => true
  | _ => false

def Event.isCompileSpawn : Event → Bool
  | .spawnCompile _ _ _ => true
  | _ => false

def Event.isRunSpawn : Event → Bool
  | .spawnRun _ _ => true
  | _ => false

def Event.isWarnLog : Event → Bool
  | .log .warn _ => true
  | _ => false

/-- Whether the trace contains a working-directory change. -/
def hasSetCwd (T : List Event) : Bool := T.any Event.isSetCwd

/-- Whether the trace contains a directory creation. -/
def hasCreateDir (T : List Event) : Bool := T.any Event.isCreateDir

/-- Whether the trace contains the Dependency Builder's spawn. -/
def hasBuildSpawn (T : List Event) : Bool := T.any Event.isBuildSpawn

/-- Whether the trace contains an artifact copy. -/
def hasCopy (T : List Event) : Bool := T.any Event.isCopy

/-- Whether the trace contains the Native Compiler Invoker's spawn. -/
def hasCompileSpawn (T : List Event) : Bool := T.any Event.isCompileSpawn

/-- Whether the trace contains the Execution Handoff's spawn. -/
def hasRunSpawn (T : List Event) : Bool := T.any Event.isRunSpawn

/-- Whether the trace contains a warning-level log. -/
def hasWarnLog (T : List Event) : Bool := T.any Event.isWarnLog

/-- `leadsTo s l`: the run that produced `s` performed an initial segment
of the event list `l` (s followed by some remainder equals l). -/
def leadsTo {α : Type} (s l : List α) : Prop := ∃ r, s ++ r = l

/-- A list occurs contiguously inside another. -/
def segOf {α : Type} (s l : List α) : Prop := ∃ u v, u ++ s ++ v = l

/-- Boolean initial-segment test. -/
def initOfB {α : Type} [DecidableEq α] : List α → List α → Bool
  | [], _ => true
  | _ :: _, [] => false
  | a :: s, b :: l => a == b && initOfB s l

/-- Boolean contiguous-occurrence test. -/
def segOfB {α : Type} [DecidableEq α] (s : List α) : List α → Bool
  | [] => initOfB s []
  | a :: l => initOfB s (a :: l) || segOfB s l

/-- The error names the given string somewhere in its messages: the
string occurs contiguously in one of the carried message strings. -/
def Err.mentionsB (e : Err) (s : String) : Bool :=
  e.strings.any fun m => segOfB s.toList m.toList

/-- Claim-level statement for the pipeline ordering and fail-fast
property: the run's trace is an initial segment of the fixed full event
order, a successful run performs it completely, and a failure of any
stage prevents every later stage's events. -/
def C1Statement (env : Env) : Prop :=
  leadsTo (main env []).2 (fullTrace env) ∧
  ((main env []).1 = .ok () → (main env []).2 = fullTrace env) ∧
  (stage1Fails env →
    hasBuildSpawn (main env []).2 = false ∧ hasCopy (main env []).2 = false ∧
    hasCompileSpawn (main env []).2 = false ∧ hasRunSpawn (main env []).2 = false) ∧
  (stage2Fails env →
    hasCopy (main env []).2 = false ∧
    hasCompileSpawn (main env []).2 = false ∧ hasRunSpawn (main env []).2 = false) ∧
  (stage3Fails env →
    hasCompileSpawn (main env []).2 = false ∧ hasRunSpawn (main env []).2 = false) ∧
  (stage4Fails env → hasRunSpawn (main env []).2 = false)

/-- Modelled from the spec: the required link-argument table of section 6,
one table entry per host OS, written from the spec's table text. -/
def specLinkFlags : OS → List String
  | .linux => ["-l", "m", "-l", "rt", "-l", "dl", "-pthread"]
  | .macos =>
    ["-framework", "CoreServices", "-framework", "Security", "-l", "System",
     "-l", "resolv", "-l", "pthread", "-l", "c", "-l", "m"]
  | .windows =>
    ["-ladvapi32", "-luserenv", "-lkernel32", "-lws2_32", "-lbcrypt", "-lncrypt",
     "-lschannel", "-lntdll", "-liphlpapi", "-lcfgmgr32", "-lcredui", "-lcrypt32",
     "-lcryptnet", "-lfwpuclnt", "-lgdi32", "-lmsimg32", "-lmswsock", "-lole32",
     "-lopengl32", "-lsecur32", "-lshell32", "-lsynchronization", "-luser32",
     "-lwinspool", "-Wl,-nodefaultlib:libcmt", "-D_DLL", "-lmsvcrt"]

/-- Modelled from the spec: the compile invocation's argument list of
section 6 — source paths, the language-standard flag, the platform link
flags from the table, the caller extra flags, the library search path,
and the output path `<build-dir>/<name><platform-exe-suffix>`. -/
def specCompileArgs (os : OS) (paths : List Path) (outName : String)
    (extra : List String) (libDir : Path) (outDir : Path) : List String :=
  paths.map Path.render ++ ["-std=c++17"] ++ specLinkFlags os ++ extra ++
    ["-L", libDir.render] ++
    ["--output", (outDir.join (Path.rel [outName ++ exeSuffix os])).render]

/-- The first staged copy's source path under the concrete witness
environment root. -/
def firstCopySrc : Path :=
  ⟨true, ["ws", "target", "cxxbridge", "dora-node-api-cxx", "dora-node-api.cc"]⟩

/-- The first staged copy's destination path. -/
def firstCopyDst : Path := ⟨false, ["build", "dora-node-api.cc"]⟩

/-- A fully successful concrete environment, used to instantiate the
universally quantified theorems. -/
def okEnv : Env :=
  { os := .linux
    manifestDir := ⟨true, ["ws"]⟩
    tracingResult := .ok ()
    setCwdResult := fun _ => .ok ()
    createDirResult := fun _ => .ok ()
    cargo := some "cargo"
    copyResult := fun _ _ => .ok ()
    canonResult := fun p => .ok ⟨true, "ws" :: "ex" :: p.components⟩
    statusResult := fun _ _ _ => .ok 0 }

/-- The io message a failed copy yields when its source file is missing. -/
def missingFileMsg : String := "No such file or directory (os error 2)"

/-- Environment in which every copy operation fails (the generated
artifacts are missing). -/
def envAllCopyFail : Env := { okEnv with copyResult := fun _ _ => .error missingFileMsg }

/-- Environment with the `CARGO` toolchain variable absent. -/
def envNoCargo : Env := { okEnv with cargo := none }

/-- Environment on the excepted (Windows) platform. -/
def envWin : Env := { okEnv with os := .windows }

/-- Environment in which tracing setup fails. -/
def envTraceFail : Env := { okEnv with tracingResult := .error "collector unavailable" }

/-- Environment in which changing the working directory fails. -/
def envSetCwdFail : Env := { okEnv with setCwdResult := fun _ => .error "permission denied" }

/-- Environment in which creating the build directory fails. -/
def envCreateDirFail : Env :=
  { okEnv with createDirResult := fun _ => .error "permission denied" }

/-- Environment in which the cargo build exits with a non-zero code and
everything else succeeds. -/
def envBuildFail : Env :=
  { okEnv with statusResult := fun prog _ _ => if prog = "cargo" then .ok 101 else .ok 0 }

/-- Environment in which the clang++ compile exits with a non-zero code
and everything else succeeds. -/
def envClangFail : Env :=
  { okEnv with statusResult := fun prog _ _ => if prog = "clang++" then .ok 1 else .ok 0 }

/-- Environment in which the dataflow run exits with a non-zero code and
everything else succeeds. -/
def envRunFail : Env :=
  { okEnv with statusResult := fun _ args _ => if args.headD "" = "run" then .ok 1 else .ok 0 }

/-- A small path used to instantiate the staging-order theorem. -/
def pA : Path := ⟨false, ["a"]⟩

/-- A second small path used to instantiate the staging-order theorem. -/
def pB : Path := ⟨false, ["b"]⟩

/-- Environment in which copying from `pB` fails and every other copy
succeeds. -/
def envPB : Env :=
  { okEnv with copyResult := fun s _ => if s = pB then .error "boom" else .ok () }

theorem leadsTo_refl {α : Type} (l : List α) : leadsTo l l := ⟨[], List.append_nil l⟩

theorem leadsTo_nil {α : Type} (l : List α) : leadsTo [] l := ⟨l, rfl⟩

theorem leadsTo_app {α : Type} (l r : List α) : leadsTo l (l ++ r) := ⟨r, rfl⟩

theorem leadsTo_mono {α : Type} (l : List α) {s r : List α} (h : leadsTo s r) :
    leadsTo (l ++ s) (l ++ r) := by
  obtain ⟨u, rfl⟩ := h
  exact ⟨u, List.append_assoc l s u⟩

theorem leadsTo_trans {α : Type} {a b c : List α} (h1 : leadsTo a b) (h2 : leadsTo b c) :
    leadsTo a c := by
  obtain ⟨u, rfl⟩ := h1
  obtain ⟨v, rfl⟩ := h2
  exact ⟨u ++ v, (List.append_assoc a u v).symm⟩

@[simp]
theorem step_ok {α β : Type} (a : α) (t : List Event) (f : α → List Event → Res β) :
    step (.ok a, t) f = f a t := rfl

@[simp]
theorem step_err {α β : Type} (e : Err) (t : List Event) (f : α → List Event → Res β) :
    step (.err e, t) f = (.err e, t) := rfl

@[simp]
theorem step_panicked {α β : Type} (m : String) (t : List Event) (f : α → List Event → Res β) :
    step (.panicked m, t) f = (.panicked m, t) := rfl

@[simp]
theorem wrapErr_ok {α : Type} (a : α) (t : List Event) (ctx : String) :
    wrapErr (.ok a, t) ctx = (.ok a, t) := rfl

@[simp]
theorem wrapErr_err {α : Type} (e : Err) (t : List Event) (ctx : String) :
    wrapErr ((.err e : Outcome α), t) ctx = (.err (.wrapped ctx e), t) := rfl

@[simp]
theorem wrapErr_panicked {α : Type} (m : String) (t : List Event) (ctx : String) :
    wrapErr ((.panicked m : Outcome α), t) ctx = (.panicked m, t) := rfl

theorem runsToV_opGen {α : Type} (r : Except String α) (ev : Event) (v : α)
    (hv : ∀ a, r = .ok a → a = v) : RunsToV (opGen r ev) [ev] v := by
  intro t
  refine ⟨[ev], rfl, leadsTo_refl _, ?_⟩
  intro a ha
  refine ⟨?_, rfl⟩
  cases r with
  | ok b =>
    have hb : Outcome.ok b = Outcome.ok a := ha
    cases hb
    exact hv a rfl
  | error m => exact absurd ha (by simp [opGen, ofExcept])

theorem runsToV_wrapErr {α : Type} {x : List Event → Res α} {full : List Event} {v : α}
    (ctx : String) (h : RunsToV x full v) :
    RunsToV (fun t => wrapErr (x t) ctx) full v := by
  intro t
  obtain ⟨s, ht, hl, hok⟩ := h t
  rcases hxt : x t with ⟨o, t1⟩
  rw [hxt] at ht hok
  have ht1 : t1 = t ++ s := ht
  cases o with
  | ok a =>
    refine ⟨s, ?_, hl, ?_⟩
    · simp only [hxt, wrapErr_ok]
      exact ht1
    · intro b hb
      simp only [hxt, wrapErr_ok] at hb
      exact hok b hb
  | err e =>
    refine ⟨s, ?_, hl, ?_⟩
    · simp only [hxt, wrapErr_err]
      exact ht1
    · intro b hb
      simp only [hxt, wrapErr_err] at hb
      simp at hb
  | panicked m =>
    refine ⟨s, ?_, hl, ?_⟩
    · simp only [hxt, wrapErr_panicked]
      exact ht1
    · intro b hb
      simp only [hxt, wrapErr_panicked] at hb
      simp at hb

theorem runsToV_step {α : Type} {x : List Event → Res α} {f : α → List Event → Res Unit}
    {full1 full2 : List Event} {v1 : α}
    (hx : RunsToV x full1 v1) (hf : RunsToV (f v1) full2 ()) :
    RunsToV (fun t => step (x t) f) (full1 ++ full2) () := by
  intro t
  obtain ⟨s1, ht, hl1, hok⟩ := hx t
  rcases hxt : x t with ⟨o, t1⟩
  rw [hxt] at ht hok
  have ht1 : t1 = t ++ s1 := ht
  cases o with
  | ok a =>
    have hok1 : ∀ b, Outcome.ok a = Outcome.ok b → b = v1 ∧ s1 = full1 := hok
    obtain ⟨hav, hsf⟩ := hok1 a rfl
    obtain ⟨s2, ht2, hl2, hok2⟩ := hf t1
    refine ⟨s1 ++ s2, ?_, ?_, ?_⟩
    · simp only [hxt, step_ok, hav]
      rw [ht2, ht1, List.append_assoc]
    · rw [hsf]
      exact leadsTo_mono full1 hl2
    · intro b hb
      simp only [hxt, step_ok, hav] at hb
      obtain ⟨_, hs2⟩ := hok2 b hb
      exact ⟨rfl, by rw [hsf, hs2]⟩
  | err e =>
    refine ⟨s1, ?_, leadsTo_trans hl1 (leadsTo_app full1 full2), ?_⟩
    · simp only [hxt, step_err]
      exact ht1
    · intro b hb
      simp only [hxt, step_err] at hb
      simp at hb
  | panicked m =>
    refine ⟨s1, ?_, leadsTo_trans hl1 (leadsTo_app full1 full2), ?_⟩
    · simp only [hxt, step_panicked]
      exact ht1
    · intro b hb
      simp only [hxt, step_panicked] at hb
      simp at hb

theorem ite_res_snd {α : Type} (c : Prop) [Decidable c] (o1 o2 : Outcome α) (t : List Event) :
    ((if c then (o1, t) else (o2, t)) : Res α).2 = t := by
  split <;> rfl

theorem trace_step_opGen {α : Type} (r : Except String α) (ev : Event)
    (k : α → List Event → Res Unit)
    (hk : ∀ a t, (k a t).2 = t) (t : List Event) :
    (step (opGen r ev t) k).2 = t ++ [ev] := by
  cases r with
  | ok a => simpa using hk a (t ++ [ev])
  | error m => rfl

theorem parent_join_file (root : Path) :
    (root.join filePathConst).parent = some (workDir root) := by
  rcases root with ⟨ab, cs⟩
  cases cs with
  | nil => rfl
  | cons c cs => rfl

theorem runsToV_build_package (env : Env) (pkg : String) (feats : List String) :
    RunsToV (build_package env pkg feats)
      [.spawnBuild (env.cargo.getD "") (buildPackageArgs pkg feats)] () := by
  intro t
  cases hc : env.cargo with
  | none =>
    exact ⟨[], by simp [build_package, hc], leadsTo_nil _, by simp [build_package, hc]⟩
  | some c =>
    refine ⟨[.spawnBuild c (buildPackageArgs pkg feats)], ?_, ?_, ?_⟩
    · show (build_package env pkg feats t).2 = _
      simp only [build_package, hc]
      exact trace_step_opGen _ _ _ (fun a t => ite_res_snd _ _ _ t) t
    · exact leadsTo_refl _
    · intro a _
      exact ⟨rfl, rfl⟩

theorem runsToV_copyAll (env : Env) (l : List (Path × Path)) :
    RunsToV (copyAll env l) (l.map (fun pr => .copy pr.1 pr.2)) () := by
  induction l with
  | nil =>
    intro t
    exact ⟨[], by simp [copyAll], leadsTo_refl _, by simp [copyAll]⟩
  | cons pr rest ih =>
    rcases pr with ⟨src, dst⟩
    exact runsToV_step (runsToV_opGen (env.copyResult src dst) (.copy src dst) ()
      (fun a _ => rfl)) ih

theorem runsToV_canon (env : Env) (p : Path) :
    RunsToV (opCanon env p) [.canon p] (canonOr env p) := by
  refine runsToV_opGen _ _ _ ?_
  intro a h
  simp [canonOr, h]

theorem runsToV_build_cxx (env : Env) (root p0 : Path) (ps : List Path)
    (nm : String) (ex : List String) :
    RunsToV (build_cxx_node env root (p0 :: ps) nm ex)
      [.spawnCompile "clang++" (clangArgs env.os root (p0 :: ps) nm ex) p0.parent] () := by
  intro t
  refine ⟨[.spawnCompile "clang++" (clangArgs env.os root (p0 :: ps) nm ex) p0.parent],
    ?_, leadsTo_refl _, fun a _ => ⟨rfl, rfl⟩⟩
  show (build_cxx_node env root (p0 :: ps) nm ex t).2 = _
  simp only [build_cxx_node]
  exact trace_step_opGen _ _ _ (fun a t => ite_res_snd _ _ _ t) t

theorem runsToV_run_dataflow (env : Env) (df : Path) :
    RunsToV (run_dataflow env df) [.spawnRun (env.cargo.getD "") (runDataflowArgs df)] () := by
  intro t
  cases hc : env.cargo with
  | none =>
    exact ⟨[], by simp [run_dataflow, hc], leadsTo_nil _, by simp [run_dataflow, hc]⟩
  | some c =>
    refine ⟨[.spawnRun c (runDataflowArgs df)], ?_, ?_, ?_⟩
    · show (run_dataflow env df t).2 = _
      simp only [run_dataflow, hc]
      exact trace_step_opGen _ _ _ (fun a t => ite_res_snd _ _ _ t) t
    · exact leadsTo_refl _
    · intro a _
      exact ⟨rfl, rfl⟩

theorem runsToV_canonAndOn (env : Env) : RunsToV (canonAndOn env) (canonTrace env) () := by
  exact runsToV_step (runsToV_canon env canonInput1)
    (runsToV_step (runsToV_canon env canonInput2)
      (runsToV_step (runsToV_canon env canonInput3)
        (runsToV_step (runsToV_build_cxx env env.manifestDir (canonOr env canonInput1)
          [canonOr env canonInput2, canonOr env canonInput3] "node_rust_api" extraFlagsConst)
          (runsToV_run_dataflow env dataflowPath))))

theorem runsToV_stagerAndOn (env : Env) : RunsToV (stagerAndOn env) (stagerTrace env) () := by
  exact runsToV_step (runsToV_copyAll env (copyList env.manifestDir))
    (runsToV_canonAndOn env)

theorem runsToV_mainBody (env : Env) : RunsToV (mainBody env) (bodyTrace env) () := by
  have hbody : mainBody env = fun t =>
      step (wrapErr (opSetCwd env (workDir env.manifestDir) t) "failed to set working dir")
        fun _ t =>
      step (opCreateDir env buildDir t) fun _ t =>
      step (build_package env "dora-node-api-cxx" ["ros2-bridge"] t) fun _ t =>
      stagerAndOn env t := by
    funext t
    simp only [mainBody, parent_join_file]
  rw [hbody]
  unfold bodyTrace
  exact runsToV_step (runsToV_wrapErr _ (runsToV_opGen _ _ () (fun a _ => rfl)))
    (runsToV_step (runsToV_opGen _ _ () (fun a _ => rfl))
      (runsToV_step (runsToV_build_package env _ _)
        (runsToV_stagerAndOn env)))

theorem runsToV_mainAfterTracing (env : Env) :
    RunsToV (mainAfterTracing env) (afterTracingTrace env) () := by
  cases hos : env.os with
  | windows =>
    intro t
    refine ⟨[.log .error windowsLogMsg], ?_, ?_, ?_⟩
    · simp [mainAfterTracing, hos]
    · simp only [afterTracingTrace, hos]
      exact leadsTo_refl _
    · intro a _
      refine ⟨rfl, ?_⟩
      simp only [afterTracingTrace, hos]
  | linux =>
    have h1 : mainAfterTracing env = mainBody env := by
      funext t
      simp [mainAfterTracing, hos]
    have h2 : afterTracingTrace env = bodyTrace env := by
      simp [afterTracingTrace, hos]
    rw [h1, h2]
    exact runsToV_mainBody env
  | macos =>
    have h1 : mainAfterTracing env = mainBody env := by
      funext t
      simp [mainAfterTracing, hos]
    have h2 : afterTracingTrace env = bodyTrace env := by
      simp [afterTracingTrace, hos]
    rw [h1, h2]
    exact runsToV_mainBody env

theorem runsToV_main (env : Env) : RunsToV (main env) (fullTrace env) () := by
  unfold fullTrace
  exact runsToV_step (runsToV_wrapErr _ (runsToV_opGen _ _ () (fun a _ => rfl)))
    (runsToV_mainAfterTracing env)

theorem main_trace_leads (env : Env) : leadsTo (main env []).2 (fullTrace env) := by
  obtain ⟨s, ht, hl, _⟩ := runsToV_main env []
  rw [ht]
  simpa using hl

theorem main_ok_trace (env : Env) (h : (main env []).1 = .ok ()) :
    (main env []).2 = fullTrace env := by
  obtain ⟨s, ht, _, hok⟩ := runsToV_main env []
  obtain ⟨_, hs⟩ := hok () h
  rw [ht, hs]
  simp

theorem bargs_fold : buildPackageArgs "dora-node-api-cxx" ["ros2-bridge"] = bargs := rfl

theorem mainAfterTracing_nonwin (env : Env) (hos : env.os ≠ .windows) :
    mainAfterTracing env = mainBody env := by
  funext t
  cases h : env.os with
  | windows => exact absurd h hos
  | linux => simp [mainAfterTracing, h]
  | macos => simp [mainAfterTracing, h]

theorem main_fail_tracing (env : Env) (m : String) (htr : env.tracingResult = .error m) :
    main env [] = (.err (.wrapped "failed to set up tracing" (.io m)),
      [.setTracing "c++-ros2-dataflow-exaple"]) := by
  simp [main, opSetTracing, opGen, ofExcept, htr]

theorem main_windows (env : Env) (hos : env.os = .windows)
    (htr : env.tracingResult = .ok ()) :
    main env [] = (.ok (),
      [.setTracing "c++-ros2-dataflow-exaple", .log .error windowsLogMsg]) := by
  simp [main, opSetTracing, opGen, ofExcept, htr, mainAfterTracing, hos]

theorem main_to_body (env : Env) (hos : env.os ≠ .windows)
    (htr : env.tracingResult = .ok ()) :
    main env [] = mainBody env [.setTracing "c++-ros2-dataflow-exaple"] := by
  simp [main, opSetTracing, opGen, ofExcept, htr, mainAfterTracing_nonwin env hos]

theorem body_fail_setCwd (env : Env) (m : String) (t : List Event)
    (h : env.setCwdResult (workDir env.manifestDir) = .error m) :
    mainBody env t = (.err (.wrapped "failed to set working dir" (.io m)),
      t ++ [.setCwd (workDir env.manifestDir)]) := by
  simp [mainBody, parent_join_file, opSetCwd, opGen, ofExcept, h]

theorem body_fail_createDir (env : Env) (m : String) (t : List Event)
    (h1 : env.setCwdResult (workDir env.manifestDir) = .ok ())
    (h2 : env.createDirResult buildDir = .error m) :
    mainBody env t = (.err (.io m),
      t ++ [.setCwd (workDir env.manifestDir), .createDir buildDir]) := by
  simp [mainBody, parent_join_file, opSetCwd, opCreateDir, opGen, ofExcept, h1, h2]

theorem body_fail_noCargo (env : Env) (t : List Event)
    (h1 : env.setCwdResult (workDir env.manifestDir) = .ok ())
    (h2 : env.createDirResult buildDir = .ok ())
    (hc : env.cargo = none) :
    mainBody env t = (.panicked unwrapEnvMsg,
      t ++ [.setCwd (workDir env.manifestDir), .createDir buildDir]) := by
  simp [mainBody, parent_join_file, opSetCwd, opCreateDir, opGen, ofExcept, h1, h2,
    build_package, hc]

theorem body_fail_buildIo (env : Env) (c m : String) (t : List Event)
    (h1 : env.setCwdResult (workDir env.manifestDir) = .ok ())
    (h2 : env.createDirResult buildDir = .ok ())
    (hc : env.cargo = some c)
    (hs : env.statusResult c bargs none = .error m) :
    mainBody env t = (.err (.io m),
      t ++ [.setCwd (workDir env.manifestDir), .createDir buildDir,
        .spawnBuild c bargs]) := by
  simp [mainBody, parent_join_file, opSetCwd, opCreateDir, opGen, ofExcept, h1, h2,
    build_package, hc, opSpawnBuild, bargs_fold, hs]

theorem body_fail_buildExit (env : Env) (c : String) (n : Nat) (t : List Event)
    (h1 : env.setCwdResult (workDir env.manifestDir) = .ok ())
    (h2 : env.createDirResult buildDir = .ok ())
    (hc : env.cargo = some c)
    (hs : env.statusResult c bargs none = .ok (n + 1)) :
    mainBody env t = (.err (.msg ("failed to compile " ++ "dora-node-api-cxx")),
      t ++ [.setCwd (workDir env.manifestDir), .createDir buildDir,
        .spawnBuild c bargs]) := by
  simp [mainBody, parent_join_file, opSetCwd, opCreateDir, opGen, ofExcept, h1, h2,
    build_package, hc, opSpawnBuild, bargs_fold, hs]

theorem body_to_stager (env : Env) (c : String) (t : List Event)
    (h1 : env.setCwdResult (workDir env.manifestDir) = .ok ())
    (h2 : env.createDirResult buildDir = .ok ())
    (hc : env.cargo = some c)
    (hs : env.statusResult c bargs none = .ok 0) :
    mainBody env t = stagerAndOn env
      (t ++ [.setCwd (workDir env.manifestDir), .createDir buildDir,
        .spawnBuild c bargs]) := by
  simp [mainBody, parent_join_file, opSetCwd, opCreateDir, opGen, ofExcept, h1, h2,
    build_package, hc, opSpawnBuild, bargs_fold, hs]

theorem copyAll_ok (env : Env) (l : List (Path × Path)) (t : List Event)
    (h : ∀ pr ∈ l, env.copyResult pr.1 pr.2 = .ok ()) :
    copyAll env l t = (.ok (), t ++ l.map fun pr => .copy pr.1 pr.2) := by
  induction l generalizing t with
  | nil => simp [copyAll]
  | cons pr rest ih =>
    rcases pr with ⟨s, d⟩
    have hs : env.copyResult s d = .ok () := h (s, d) (by simp)
    rw [copyAll]
    simp [opCopy, opGen, ofExcept, hs,
      ih (t ++ [.copy s d]) (fun pr hpr => h pr (List.mem_cons_of_mem _ hpr))]

theorem copyAll_fail (env : Env) (l1 : List (Path × Path)) (src dst : Path)
    (l2 : List (Path × Path)) (m : String) (t : List Event)
    (h1 : ∀ pr ∈ l1, env.copyResult pr.1 pr.2 = .ok ())
    (hf : env.copyResult src dst = .error m) :
    copyAll env (l1 ++ (src, dst) :: l2) t =
      (.err (.io m), t ++ l1.map (fun pr => .copy pr.1 pr.2) ++ [.copy src dst]) := by
  induction l1 generalizing t with
  | nil => simp [copyAll, opCopy, opGen, ofExcept, hf]
  | cons pr rest ih =>
    rcases pr with ⟨s, d⟩
    have hs : env.copyResult s d = .ok () := h1 (s, d) (by simp)
    rw [List.cons_append, copyAll]
    simp [opCopy, opGen, ofExcept, hs,
      ih (t ++ [.copy s d]) (fun pr hpr => h1 pr (List.mem_cons_of_mem _ hpr))]

theorem first_copy_fail (env : Env) (l : List (Path × Path))
    (h : ∃ pr ∈ l, env.copyResult pr.1 pr.2 ≠ .ok ()) :
    ∃ l1 src dst l2 m, l = l1 ++ (src, dst) :: l2 ∧
      (∀ pr ∈ l1, env.copyResult pr.1 pr.2 = .ok ()) ∧
      env.copyResult src dst = .error m := by
  induction l with
  | nil => simp at h
  | cons pr rest ih =>
    rcases pr with ⟨s, d⟩
    rcases hsd : env.copyResult s d with m | u
    · exact ⟨[], s, d, rest, m, rfl, by simp, hsd⟩
    · cases u
      have hrest : ∃ pr ∈ rest, env.copyResult pr.1 pr.2 ≠ .ok () := by
        rcases h with ⟨pr, hpr, hne⟩
        rcases List.mem_cons.mp hpr with heq | hmem
        · rw [heq] at hne
          exact absurd hsd hne
        · exact ⟨pr, hmem, hne⟩
      obtain ⟨l1, src, dst, l2, m, hl, hall, hf⟩ := ih hrest
      refine ⟨(s, d) :: l1, src, dst, l2, m, by simp [hl], ?_, hf⟩
      intro pr hpr
      rcases List.mem_cons.mp hpr with heq | hmem
      · rw [heq]
        exact hsd
      · exact hall pr hmem

theorem stager_fail (env : Env) (l1 : List (Path × Path)) (src dst : Path)
    (l2 : List (Path × Path)) (m : String) (t : List Event)
    (hdec : copyList env.manifestDir = l1 ++ (src, dst) :: l2)
    (h1 : ∀ pr ∈ l1, env.copyResult pr.1 pr.2 = .ok ())
    (hf : env.copyResult src dst = .error m) :
    stagerAndOn env t =
      (.err (.io m), t ++ l1.map (fun pr => .copy pr.1 pr.2) ++ [.copy src dst]) := by
  rw [stagerAndOn, hdec, copyAll_fail env l1 src dst l2 m t h1 hf]
  rfl

theorem stager_to_canon (env : Env) (t : List Event)
    (hall : ∀ pr ∈ copyList env.manifestDir, env.copyResult pr.1 pr.2 = .ok ()) :
    stagerAndOn env t =
      canonAndOn env (t ++ (copyList env.manifestDir).map fun pr => .copy pr.1 pr.2) := by
  rw [stagerAndOn, copyAll_ok env _ t hall]
  rfl

theorem canon_fail1 (env : Env) (m : String) (t : List Event)
    (h : env.canonResult canonInput1 = .error m) :
    canonAndOn env t = (.err (.io m), t ++ [.canon canonInput1]) := by
  simp [canonAndOn, opCanon, opGen, ofExcept, h]

theorem canon_fail2 (env : Env) (q1 : Path) (m : String) (t : List Event)
    (hq1 : env.canonResult canonInput1 = .ok q1)
    (h : env.canonResult canonInput2 = .error m) :
    canonAndOn env t = (.err (.io m), t ++ [.canon canonInput1, .canon canonInput2]) := by
  simp [canonAndOn, opCanon, opGen, ofExcept, hq1, h]

theorem canon_fail3 (env : Env) (q1 q2 : Path) (m : String) (t : List Event)
    (hq1 : env.canonResult canonInput1 = .ok q1)
    (hq2 : env.canonResult canonInput2 = .ok q2)
    (h : env.canonResult canonInput3 = .error m) :
    canonAndOn env t = (.err (.io m),
      t ++ [.canon canonInput1, .canon canonInput2, .canon canonInput3]) := by
  simp [canonAndOn, opCanon, opGen, ofExcept, hq1, hq2, h]

theorem canon_fail_clangIo (env : Env) (q1 q2 q3 : Path) (m : String) (t : List Event)
    (hq1 : env.canonResult canonInput1 = .ok q1)
    (hq2 : env.canonResult canonInput2 = .ok q2)
    (hq3 : env.canonResult canonInput3 = .ok q3)
    (hs : env.statusResult "clang++"
      (clangArgs env.os env.manifestDir [q1, q2, q3] "node_rust_api" extraFlagsConst)
      q1.parent = .error m) :
    canonAndOn env t = (.err (.io m),
      t ++ [.canon canonInput1, .canon canonInput2, .canon canonInput3,
        .spawnCompile "clang++"
          (clangArgs env.os env.manifestDir [q1, q2, q3] "node_rust_api" extraFlagsConst)
          q1.parent]) := by
  simp [canonAndOn, opCanon, opGen, ofExcept, hq1, hq2, hq3, build_cxx_node,
    opSpawnCompile, hs]

theorem canon_fail_clangExit (env : Env) (q1 q2 q3 : Path) (n : Nat) (t : List Event)
    (hq1 : env.canonResult canonInput1 = .ok q1)
    (hq2 : env.canonResult canonInput2 = .ok q2)
    (hq3 : env.canonResult canonInput3 = .ok q3)
    (hs : env.statusResult "clang++"
      (clangArgs env.os env.manifestDir [q1, q2, q3] "node_rust_api" extraFlagsConst)
      q1.parent = .ok (n + 1)) :
    canonAndOn env t = (.err (.msg "failed to compile c++ node"),
      t ++ [.canon canonInput1, .canon canonInput2, .canon canonInput3,
        .spawnCompile "clang++"
          (clangArgs env.os env.manifestDir [q1, q2, q3] "node_rust_api" extraFlagsConst)
          q1.parent]) := by
  simp [canonAndOn, opCanon, opGen, ofExcept, hq1, hq2, hq3, build_cxx_node,
    opSpawnCompile, hs]

theorem canon_to_run (env : Env) (q1 q2 q3 : Path) (t : List Event)
    (hq1 : env.canonResult canonInput1 = .ok q1)
    (hq2 : env.canonResult canonInput2 = .ok q2)
    (hq3 : env.canonResult canonInput3 = .ok q3)
    (hs : env.statusResult "clang++"
      (clangArgs env.os env.manifestDir [q1, q2, q3] "node_rust_api" extraFlagsConst)
      q1.parent = .ok 0) :
    canonAndOn env t = run_dataflow env dataflowPath
      (t ++ [.canon canonInput1, .canon canonInput2, .canon canonInput3,
        .spawnCompile "clang++"
          (clangArgs env.os env.manifestDir [q1, q2, q3] "node_rust_api" extraFlagsConst)
          q1.parent]) := by
  simp [canonAndOn, opCanon, opGen, ofExcept, hq1, hq2, hq3, build_cxx_node,
    opSpawnCompile, hs]

theorem run_fail_io (env : Env) (c m : String) (t : List Event)
    (hc : env.cargo = some c)
    (hs : env.statusResult c (runDataflowArgs dataflowPath) none = .error m) :
    run_dataflow env dataflowPath t = (.err (.io m),
      t ++ [.spawnRun c (runDataflowArgs dataflowPath)]) := by
  simp [run_dataflow, hc, opSpawnRun, opGen, ofExcept, hs]

theorem run_fail_exit (env : Env) (c : String) (n : Nat) (t : List Event)
    (hc : env.cargo = some c)
    (hs : env.statusResult c (runDataflowArgs dataflowPath) none = .ok (n + 1)) :
    run_dataflow env dataflowPath t = (.err (.msg "failed to run dataflow"),
      t ++ [.spawnRun c (runDataflowArgs dataflowPath)]) := by
  simp [run_dataflow, hc, opSpawnRun, opGen, ofExcept, hs]

theorem copyEvents_no_compile (l : List (Path × Path)) :
    hasCompileSpawn (l.map fun pr => Event.copy pr.1 pr.2) = false := by
  simp [hasCompileSpawn, List.any_map, Function.comp, Event.isCompileSpawn]
  intro x p1 p2 _ hx
  subst hx
  rfl

theorem copyEvents_no_run (l : List (Path × Path)) :
    hasRunSpawn (l.map fun pr => Event.copy pr.1 pr.2) = false := by
  simp [hasRunSpawn, List.any_map, Function.comp, Event.isRunSpawn]
  intro x p1 p2 _ hx
  subst hx
  rfl

theorem gate1 (env : Env) (h : stage1Fails env) :
    hasBuildSpawn (main env []).2 = false ∧ hasCopy (main env []).2 = false ∧
    hasCompileSpawn (main env []).2 = false ∧ hasRunSpawn (main env []).2 = false := by
  by_cases hos : env.os = .windows
  · rcases htr : env.tracingResult with m | ⟨⟩
    · rw [main_fail_tracing env m htr]
      simp [hasBuildSpawn, hasCopy, hasCompileSpawn, hasRunSpawn, Event.isBuildSpawn,
        Event.isCopy, Event.isCompileSpawn, Event.isRunSpawn]
    · rw [main_windows env hos htr]
      simp [hasBuildSpawn, hasCopy, hasCompileSpawn, hasRunSpawn, Event.isBuildSpawn,
        Event.isCopy, Event.isCompileSpawn, Event.isRunSpawn]
  · rcases htr : env.tracingResult with m | ⟨⟩
    · rw [main_fail_tracing env m htr]
      simp [hasBuildSpawn, hasCopy, hasCompileSpawn, hasRunSpawn, Event.isBuildSpawn,
        Event.isCopy, Event.isCompileSpawn, Event.isRunSpawn]
    · rw [main_to_body env hos htr]
      rcases hsc : env.setCwdResult (workDir env.manifestDir) with m | ⟨⟩
      · rw [body_fail_setCwd env m _ hsc]
        simp [hasBuildSpawn, hasCopy, hasCompileSpawn, hasRunSpawn, Event.isBuildSpawn,
          Event.isCopy, Event.isCompileSpawn, Event.isRunSpawn]
      · rcases hcd : env.createDirResult buildDir with m | ⟨⟩
        · rw [body_fail_createDir env m _ hsc hcd]
          simp [hasBuildSpawn, hasCopy, hasCompileSpawn, hasRunSpawn, Event.isBuildSpawn,
            Event.isCopy, Event.isCompileSpawn, Event.isRunSpawn]
        · rcases h with h1 | h2
          · exact absurd hsc h1
          · exact absurd hcd h2

theorem gate2 (env : Env) (h : stage2Fails env) :
    hasCopy (main env []).2 = false ∧
    hasCompileSpawn (main env []).2 = false ∧ hasRunSpawn (main env []).2 = false := by
  by_cases hos : env.os = .windows
  · rcases htr : env.tracingResult with m | ⟨⟩
    · rw [main_fail_tracing env m htr]
      simp [hasCopy, hasCompileSpawn, hasRunSpawn, Event.isCopy, Event.isCompileSpawn,
        Event.isRunSpawn]
    · rw [main_windows env hos htr]
      simp [hasCopy, hasCompileSpawn, hasRunSpawn, Event.isCopy, Event.isCompileSpawn,
        Event.isRunSpawn]
  · rcases htr : env.tracingResult with m | ⟨⟩
    · rw [main_fail_tracing env m htr]
      simp [hasCopy, hasCompileSpawn, hasRunSpawn, Event.isCopy, Event.isCompileSpawn,
        Event.isRunSpawn]
    · rw [main_to_body env hos htr]
      rcases hsc : env.setCwdResult (workDir env.manifestDir) with m | ⟨⟩
      · rw [body_fail_setCwd env m _ hsc]
        simp [hasCopy, hasCompileSpawn, hasRunSpawn, Event.isCopy, Event.isCompileSpawn,
          Event.isRunSpawn]
      · rcases hcd : env.createDirResult buildDir with m | ⟨⟩
        · rw [body_fail_createDir env m _ hsc hcd]
          simp [hasCopy, hasCompileSpawn, hasRunSpawn, Event.isCopy, Event.isCompileSpawn,
            Event.isRunSpawn]
        · rcases hc : env.cargo with _ | c
          · rw [body_fail_noCargo env _ hsc hcd hc]
            simp [hasCopy, hasCompileSpawn, hasRunSpawn, Event.isCopy,
              Event.isCompileSpawn, Event.isRunSpawn]
          · have hb : env.statusResult c bargs none ≠ .ok 0 := by
              simp only [stage2Fails, hc] at h
              exact h
            rcases hs : env.statusResult c bargs none with m | n
            · rw [body_fail_buildIo env c m _ hsc hcd hc hs]
              simp [hasCopy, hasCompileSpawn, hasRunSpawn, Event.isCopy,
                Event.isCompileSpawn, Event.isRunSpawn]
            · cases n with
              | zero => exact absurd hs hb
              | succ k =>
                rw [body_fail_buildExit env c k _ hsc hcd hc hs]
                simp [hasCopy, hasCompileSpawn, hasRunSpawn, Event.isCopy,
                  Event.isCompileSpawn, Event.isRunSpawn]

theorem gate3 (env : Env) (h : stage3Fails env) :
    hasCompileSpawn (main env []).2 = false ∧ hasRunSpawn (main env []).2 = false := by
  by_cases hos : env.os = .windows
  · rcases htr : env.tracingResult with m | ⟨⟩
    · rw [main_fail_tracing env m htr]
      simp [hasCompileSpawn, hasRunSpawn, Event.isCompileSpawn, Event.isRunSpawn]
    · rw [main_windows env hos htr]
      simp [hasCompileSpawn, hasRunSpawn, Event.isCompileSpawn, Event.isRunSpawn]
  · rcases htr : env.tracingResult with m | ⟨⟩
    · rw [main_fail_tracing env m htr]
      simp [hasCompileSpawn, hasRunSpawn, Event.isCompileSpawn, Event.isRunSpawn]
    · rw [main_to_body env hos htr]
      rcases hsc : env.setCwdResult (workDir env.manifestDir) with m | ⟨⟩
      · rw [body_fail_setCwd env m _ hsc]
        simp [hasCompileSpawn, hasRunSpawn, Event.isCompileSpawn, Event.isRunSpawn]
      · rcases hcd : env.createDirResult buildDir with m | ⟨⟩
        · rw [body_fail_createDir env m _ hsc hcd]
          simp [hasCompileSpawn, hasRunSpawn, Event.isCompileSpawn, Event.isRunSpawn]
        · rcases hc : env.cargo with _ | c
          · rw [body_fail_noCargo env _ hsc hcd hc]
            simp [hasCompileSpawn, hasRunSpawn, Event.isCompileSpawn, Event.isRunSpawn]
          · rcases hs : env.statusResult c bargs none with m | n
            · rw [body_fail_buildIo env c m _ hsc hcd hc hs]
              simp [hasCompileSpawn, hasRunSpawn, Event.isCompileSpawn, Event.isRunSpawn]
            · cases n with
              | succ k =>
                rw [body_fail_buildExit env c k _ hsc hcd hc hs]
                simp [hasCompileSpawn, hasRunSpawn, Event.isCompileSpawn, Event.isRunSpawn]
              | zero =>
                obtain ⟨l1, src, dst, l2, m, hdec, hall, hf⟩ :=
                  first_copy_fail env (copyList env.manifestDir) h
                rw [body_to_stager env c _ hsc hcd hc hs,
                  stager_fail env l1 src dst l2 m _ hdec hall hf]
                refine ⟨?_, ?_⟩
                · simp [hasCompileSpawn, List.any_append, List.any_map, Function.comp,
                    Event.isCompileSpawn]
                  intro x p1 p2 _ hx
                  subst hx
                  rfl
                · simp [hasRunSpawn, List.any_append, List.any_map, Function.comp,
                    Event.isRunSpawn]
                  intro x p1 p2 _ hx
                  subst hx
                  rfl

theorem gate4 (env : Env) (h : stage4Fails env) :
    hasRunSpawn (main env []).2 = false := by
  by_cases hos : env.os = .windows
  · rcases htr : env.tracingResult with m | ⟨⟩
    · rw [main_fail_tracing env m htr]
      simp [hasRunSpawn, Event.isRunSpawn]
    · rw [main_windows env hos htr]
      simp [hasRunSpawn, Event.isRunSpawn]
  · rcases htr : env.tracingResult with m | ⟨⟩
    · rw [main_fail_tracing env m htr]
      simp [hasRunSpawn, Event.isRunSpawn]
    · rw [main_to_body env hos htr]
      rcases hsc : env.setCwdResult (workDir env.manifestDir) with m | ⟨⟩
      · rw [body_fail_setCwd env m _ hsc]
        simp [hasRunSpawn, Event.isRunSpawn]
      · rcases hcd : env.createDirResult buildDir with m | ⟨⟩
        · rw [body_fail_createDir env m _ hsc hcd]
          simp [hasRunSpawn, Event.isRunSpawn]
        · rcases hc : env.cargo with _ | c
          · rw [body_fail_noCargo env _ hsc hcd hc]
            simp [hasRunSpawn, Event.isRunSpawn]
          · rcases hs : env.statusResult c bargs none with m | n
            · rw [body_fail_buildIo env c m _ hsc hcd hc hs]
              simp [hasRunSpawn, Event.isRunSpawn]
            · cases n with
              | succ k =>
                rw [body_fail_buildExit env c k _ hsc hcd hc hs]
                simp [hasRunSpawn, Event.isRunSpawn]
              | zero =>
                by_cases hcopy :
                  ∃ pr ∈ copyList env.manifestDir, env.copyResult pr.1 pr.2 ≠ .ok ()
                · obtain ⟨l1, src, dst, l2, m, hdec, hall, hf⟩ :=
                    first_copy_fail env (copyList env.manifestDir) hcopy
                  rw [body_to_stager env c _ hsc hcd hc hs,
                    stager_fail env l1 src dst l2 m _ hdec hall hf]
                  simp [hasRunSpawn, List.any_append, List.any_map, Function.comp,
                    Event.isRunSpawn]
                  intro x p1 p2 _ hx
                  subst hx
                  rfl
                · have hall : ∀ pr ∈ copyList env.manifestDir,
                      env.copyResult pr.1 pr.2 = .ok () := by
                    intro pr hpr
                    by_contra hne
                    exact hcopy ⟨pr, hpr, hne⟩
                  rw [body_to_stager env c _ hsc hcd hc hs, stager_to_canon env _ hall]
                  rcases hq1 : env.canonResult canonInput1 with m | q1
                  · rw [canon_fail1 env m _ hq1]
                    simp [hasRunSpawn, List.any_append, List.any_map, Function.comp,
                      Event.isRunSpawn]
                    intro x p1 p2 _ hx
                    subst hx
                    rfl
                  · rcases hq2 : env.canonResult canonInput2 with m | q2
                    · rw [canon_fail2 env q1 m _ hq1 hq2]
                      simp [hasRunSpawn, List.any_append, List.any_map, Function.comp,
                        Event.isRunSpawn]
                      intro x p1 p2 _ hx
                      subst hx
                      rfl
                    · rcases hq3 : env.canonResult canonInput3 with m | q3
                      · rw [canon_fail3 env q1 q2 m _ hq1 hq2 hq3]
                        simp [hasRunSpawn, List.any_append, List.any_map, Function.comp,
                          Event.isRunSpawn]
                        intro x p1 p2 _ hx
                        subst hx
                        rfl
                      · have hargs : pipelineClangArgs env =
                            clangArgs env.os env.manifestDir [q1, q2, q3]
                              "node_rust_api" extraFlagsConst := by
                          simp [pipelineClangArgs, canonOr, hq1, hq2, hq3]
                        have hcw : canonOr env canonInput1 = q1 := by
                          simp [canonOr, hq1]
                        rcases h with hA | hA | hA | hA
                        · rw [hq1] at hA
                          simp [Except.isOk, Except.toBool] at hA
                        · rw [hq2] at hA
                          simp [Except.isOk, Except.toBool] at hA
                        · rw [hq3] at hA
                          simp [Except.isOk, Except.toBool] at hA
                        · rw [hargs, hcw] at hA
                          rcases hcl : env.statusResult "clang++"
                              (clangArgs env.os env.manifestDir [q1, q2, q3]
                                "node_rust_api" extraFlagsConst) q1.parent with m | n
                          · rw [canon_fail_clangIo env q1 q2 q3 m _ hq1 hq2 hq3 hcl]
                            simp [hasRunSpawn, List.any_append, List.any_map,
                              Function.comp, Event.isRunSpawn]
                            intro x p1 p2 _ hx
                            subst hx
                            rfl
                          · cases n with
                            | zero => exact absurd hcl hA
                            | succ k =>
                              rw [canon_fail_clangExit env q1 q2 q3 k _ hq1 hq2 hq3 hcl]
                              simp [hasRunSpawn, List.any_append, List.any_map,
                                Function.comp, Event.isRunSpawn]
                              intro x p1 p2 _ hx
                              subst hx
                              rfl

theorem full_has_run (env : Env) (hos : env.os ≠ .windows) :
    hasRunSpawn (fullTrace env) = true := by
  cases h : env.os with
  | windows => exact absurd h hos
  | linux =>
    simp [fullTrace, afterTracingTrace, h, bodyTrace, stagerTrace, canonTrace,
      hasRunSpawn, List.any_append, Event.isRunSpawn]
  | macos =>
    simp [fullTrace, afterTracingTrace, h, bodyTrace, stagerTrace, canonTrace,
      hasRunSpawn, List.any_append, Event.isRunSpawn]

theorem main_cases (env : Env) : C1Statement env :=
  ⟨main_trace_leads env, main_ok_trace env, gate1 env, gate2 env, gate3 env, gate4 env⟩

theorem main_ok_windows_or_ran (env : Env) (h : (main env []).1 = .ok ()) :
    env.os = .windows ∨ hasRunSpawn (main env []).2 = true := by
  by_cases hos : env.os = .windows
  · exact Or.inl hos
  · right
    rw [main_ok_trace env h]
    exact full_has_run env hos

/-- Claim C1: the five pipeline stages (working-directory setup and
build-directory creation, Dependency Builder, Artifact Stager, Native
Compiler Invoker, Execution Handoff) execute in a fixed total order — the
trace of every run is an initial segment of the fixed full event order
and a successful run performs it completely — and for every run in which
any single stage fails, no later stage's events occur. -/
theorem C1_pipeline_order_fail_fast (env : Env) : C1Statement env := main_cases env

/-- Witness for C1: the pipeline ordering statement at the concrete
all-success environment. -/
theorem C1_pipeline_order_fail_fast_witness : C1Statement okEnv :=
  C1_pipeline_order_fail_fast okEnv

/-- Claim C2: on the excepted (Windows) platform the orchestrator returns
success immediately after the tracing setup, with no working-directory
change, no build-directory creation, no artifact copy, and no compile
spawn before the early return. -/
theorem C2_windows_no_mutation (env : Env) (hos : env.os = .windows)
    (htr : env.tracingResult = .ok ()) :
    (main env []).1 = .ok () ∧
    (main env []).2 =
      [.setTracing "c++-ros2-dataflow-exaple", .log .error windowsLogMsg] ∧
    hasSetCwd (main env []).2 = false ∧
    hasCreateDir (main env []).2 = false ∧
    hasCopy (main env []).2 = false ∧
    hasCompileSpawn (main env []).2 = false := by
  rw [main_windows env hos htr]
  exact ⟨rfl, rfl, rfl, rfl, rfl, rfl⟩

/-- Witness for C2 at the concrete Windows environment. -/
theorem C2_windows_no_mutation_witness :
    (main envWin []).1 = .ok () ∧
    (main envWin []).2 =
      [.setTracing "c++-ros2-dataflow-exaple", .log .error windowsLogMsg] ∧
    hasSetCwd (main envWin []).2 = false ∧
    hasCreateDir (main envWin []).2 = false ∧
    hasCopy (main envWin []).2 = false ∧
    hasCompileSpawn (main envWin []).2 = false :=
  C2_windows_no_mutation envWin rfl rfl

/-- Counterexample to claim C3: with the toolchain environment variable
absent the run's outcome is an abrupt unwrap panic, not a typed error
surfaced to the caller. -/
theorem C3_counterexample :
    (main envNoCargo []).1 = .panicked unwrapEnvMsg ∧
    Outcome.isTypedErr (main envNoCargo []).1 = false := ⟨rfl, rfl⟩

/-- Claim C3 as amended: when the toolchain-path environment value is
absent, the pipeline terminates abruptly with the unwrap panic at the
Dependency Builder stage; no typed error is surfaced to the caller. -/
theorem C3_missing_cargo_panics (env : Env) (hos : env.os ≠ .windows)
    (htr : env.tracingResult = .ok ())
    (hsc : env.setCwdResult (workDir env.manifestDir) = .ok ())
    (hcd : env.createDirResult buildDir = .ok ())
    (hc : env.cargo = none) :
    (main env []).1 = .panicked unwrapEnvMsg ∧
    Outcome.isTypedErr (main env []).1 = false := by
  rw [main_to_body env hos htr, body_fail_noCargo env _ hsc hcd hc]
  exact ⟨rfl, rfl⟩

/-- Witness for the amended C3 at the concrete environment with no
toolchain variable. -/
theorem C3_missing_cargo_panics_witness :
    (main envNoCargo []).1 = .panicked unwrapEnvMsg ∧
    Outcome.isTypedErr (main envNoCargo []).1 = false :=
  C3_missing_cargo_panics envNoCargo (by decide) rfl rfl rfl rfl

/-- Counterexample to claim C4: an Artifact Stager copy failure is
surfaced as the raw io error with no context layer at all, so not every
stage failure carries a stage-identifying context message. -/
theorem C4_counterexample :
    (main envAllCopyFail []).1 = .err (.io missingFileMsg) ∧
    Err.contexts (.io missingFileMsg) = [] := ⟨rfl, rfl⟩

/-- Claim C4 as amended: tracing-setup and working-directory failures are
wrapped with a context message; the Dependency Builder, Native Compiler
Invoker, and Execution Handoff report non-zero exits through
stage-identifying bail messages; but build-directory creation failures
and Artifact Stager copy failures are propagated as raw io errors with no
stage-identifying context. -/
theorem C4_stage_error_context :
    (∀ (env : Env) (m : String), env.tracingResult = .error m →
      (main env []).1 = .err (.wrapped "failed to set up tracing" (.io m))) ∧
    (∀ (env : Env) (m : String), env.os ≠ .windows → env.tracingResult = .ok () →
      env.setCwdResult (workDir env.manifestDir) = .error m →
      (main env []).1 = .err (.wrapped "failed to set working dir" (.io m))) ∧
    (∀ (env : Env) (m : String), env.os ≠ .windows → env.tracingResult = .ok () →
      env.setCwdResult (workDir env.manifestDir) = .ok () →
      env.createDirResult buildDir = .error m →
      (main env []).1 = .err (.io m) ∧ Err.contexts (.io m) = []) ∧
    (∀ (env : Env) (c : String) (n : Nat), env.os ≠ .windows →
      env.tracingResult = .ok () →
      env.setCwdResult (workDir env.manifestDir) = .ok () →
      env.createDirResult buildDir = .ok () →
      env.cargo = some c → env.statusResult c bargs none = .ok (n + 1) →
      (main env []).1 = .err (.msg ("failed to compile " ++ "dora-node-api-cxx"))) ∧
    (∀ (env : Env) (c m : String), env.os ≠ .windows →
      env.tracingResult = .ok () →
      env.setCwdResult (workDir env.manifestDir) = .ok () →
      env.createDirResult buildDir = .ok () →
      env.cargo = some c → env.statusResult c bargs none = .ok 0 →
      env.copyResult ((nodeCxxbridge env.manifestDir).join (Path.rel ["dora-node-api.cc"]))
        (buildDir.join (Path.rel ["dora-node-api.cc"])) = .error m →
      (main env []).1 = .err (.io m) ∧ Err.contexts (.io m) = []) ∧
    (∀ (env : Env) (c : String) (q1 q2 q3 : Path) (n : Nat), env.os ≠ .windows →
      env.tracingResult = .ok () →
      env.setCwdResult (workDir env.manifestDir) = .ok () →
      env.createDirResult buildDir = .ok () →
      env.cargo = some c → env.statusResult c bargs none = .ok 0 →
      (∀ pr ∈ copyList env.manifestDir, env.copyResult pr.1 pr.2 = .ok ()) →
      env.canonResult canonInput1 = .ok q1 →
      env.canonResult canonInput2 = .ok q2 →
      env.canonResult canonInput3 = .ok q3 →
      env.statusResult "clang++" (clangArgs env.os env.manifestDir [q1, q2, q3]
        "node_rust_api" extraFlagsConst) q1.parent = .ok (n + 1) →
      (main env []).1 = .err (.msg "failed to compile c++ node")) ∧
    (∀ (env : Env) (c : String) (q1 q2 q3 : Path) (n : Nat), env.os ≠ .windows →
      env.tracingResult = .ok () →
      env.setCwdResult (workDir env.manifestDir) = .ok () →
      env.createDirResult buildDir = .ok () →
      env.cargo = some c → env.statusResult c bargs none = .ok 0 →
      (∀ pr ∈ copyList env.manifestDir, env.copyResult pr.1 pr.2 = .ok ()) →
      env.canonResult canonInput1 = .ok q1 →
      env.canonResult canonInput2 = .ok q2 →
      env.canonResult canonInput3 = .ok q3 →
      env.statusResult "clang++" (clangArgs env.os env.manifestDir [q1, q2, q3]
        "node_rust_api" extraFlagsConst) q1.parent = .ok 0 →
      env.statusResult c (runDataflowArgs dataflowPath) none = .ok (n + 1) →
      (main env []).1 = .err (.msg "failed to run dataflow")) := by
  refine ⟨?_, ?_, ?_, ?_, ?_, ?_, ?_⟩
  · intro env m htr
    rw [main_fail_tracing env m htr]
  · intro env m hos htr hsc
    rw [main_to_body env hos htr, body_fail_setCwd env m _ hsc]
  · intro env m hos htr hsc hcd
    rw [main_to_body env hos htr, body_fail_createDir env m _ hsc hcd]
    exact ⟨rfl, rfl⟩
  · intro env c n hos htr hsc hcd hc hb
    rw [main_to_body env hos htr, body_fail_buildExit env c n _ hsc hcd hc hb]
  · intro env c m hos htr hsc hcd hc hb hcp
    rw [main_to_body env hos htr, body_to_stager env c _ hsc hcd hc hb,
      stager_fail env [] _ _ _ m _ rfl (by simp) hcp]
    exact ⟨rfl, rfl⟩
  · intro env c q1 q2 q3 n hos htr hsc hcd hc hb hcopies hq1 hq2 hq3 hcl
    rw [main_to_body env hos htr, body_to_stager env c _ hsc hcd hc hb,
      stager_to_canon env _ hcopies,
      canon_fail_clangExit env q1 q2 q3 n _ hq1 hq2 hq3 hcl]
  · intro env c q1 q2 q3 n hos htr hsc hcd hc hb hcopies hq1 hq2 hq3 hcl hrun
    rw [main_to_body env hos htr, body_to_stager env c _ hsc hcd hc hb,
      stager_to_canon env _ hcopies,
      canon_to_run env q1 q2 q3 _ hq1 hq2 hq3 hcl,
      run_fail_exit env c n _ hc hrun]

/-- Witness for the amended C4: the tracing wrap, the raw copy error, and
the handoff bail message at concrete environments. -/
theorem C4_stage_error_context_witness :
    (main envTraceFail []).1 =
      .err (.wrapped "failed to set up tracing" (.io "collector unavailable")) ∧
    ((main envAllCopyFail []).1 = .err (.io missingFileMsg) ∧
      Err.contexts (.io missingFileMsg) = []) ∧
    (main envRunFail []).1 = .err (.msg "failed to run dataflow") :=
  ⟨C4_stage_error_context.1 envTraceFail "collector unavailable" rfl,
   C4_stage_error_context.2.2.2.2.1 envAllCopyFail "cargo" missingFileMsg
     (by decide) rfl rfl rfl rfl rfl rfl,
   C4_stage_error_context.2.2.2.2.2.2 envRunFail "cargo"
     ⟨true, ["ws", "ex", "node-rust-api", "main.cc"]⟩
     ⟨true, ["ws", "ex", "build", "dora-ros2-bindings.cc"]⟩
     ⟨true, ["ws", "ex", "build", "dora-node-api.cc"]⟩ 0
     (by decide) rfl rfl rfl rfl rfl (fun pr _ => rfl) rfl rfl rfl rfl rfl⟩

/-- Claim C5: for every host OS the native compiler invocation's argument
list equals exactly the documented list — source paths, the
language-standard flag, the platform link flags of the spec table, the
caller extra flags appended after them, the library search path, and the
output path with the platform executable suffix — with no extra, missing,
or reordered arguments. -/
theorem C5_compiler_args (env : Env) (root p0 : Path) (ps : List Path)
    (nm : String) (extra : List String) (t : List Event) :
    clangArgs env.os root (p0 :: ps) nm extra =
      specCompileArgs env.os (p0 :: ps) nm extra
        ((root.join (Path.rel ["target"])).join (Path.rel ["debug"]))
        (Path.rel ["..", "build"]) ∧
    (build_cxx_node env root (p0 :: ps) nm extra t).2 =
      t ++ [.spawnCompile "clang++"
        (specCompileArgs env.os (p0 :: ps) nm extra
          ((root.join (Path.rel ["target"])).join (Path.rel ["debug"]))
          (Path.rel ["..", "build"]))
        p0.parent] := by
  have hargs : clangArgs env.os root (p0 :: ps) nm extra =
      specCompileArgs env.os (p0 :: ps) nm extra
        ((root.join (Path.rel ["target"])).join (Path.rel ["debug"]))
        (Path.rel ["..", "build"]) := by
    cases h : env.os <;> rfl
  refine ⟨hargs, ?_⟩
  rw [← hargs]
  show (build_cxx_node env root (p0 :: ps) nm extra t).2 = _
  simp only [build_cxx_node]
  exact trace_step_opGen _ _ _ (fun a t => ite_res_snd _ _ _ t) t

/-- Counterexample to claim C6: the first failing copy aborts the stager,
but the surfaced failure is the raw io error, which does not name either
the source or the destination path of the failed copy. -/
theorem C6_counterexample :
    (main envAllCopyFail []).1 = .err (.io missingFileMsg) ∧
    (main envAllCopyFail []).2 =
      [.setTracing "c++-ros2-dataflow-exaple",
       .setCwd ⟨true, ["ws", "dora-hardware", "example_test", "cxx_ros2_dataflow"]⟩,
       .createDir buildDir, .spawnBuild "cargo" bargs,
       .copy firstCopySrc firstCopyDst] ∧
    Err.mentionsB (.io missingFileMsg) firstCopySrc.render = false ∧
    Err.mentionsB (.io missingFileMsg) firstCopyDst.render = false ∧
    hasCompileSpawn (main envAllCopyFail []).2 = false :=
  ⟨rfl, rfl, by decide, by decide, rfl⟩

/-- Claim C6 as amended: the Artifact Stager copies the files one at a
time in listed order; the first copy that fails aborts the stager with
the underlying io error propagated unchanged (without any added message
naming the path); no remaining copy is attempted; and whenever some
listed copy would fail, the Native Compiler Invoker (and the handoff) is
never invoked. -/
theorem C6_stager_order_first_fail :
    (∀ (env : Env) (l1 : List (Path × Path)) (src dst : Path)
      (l2 : List (Path × Path)) (m : String) (t : List Event),
      (∀ pr ∈ l1, env.copyResult pr.1 pr.2 = .ok ()) →
      env.copyResult src dst = .error m →
      copyAll env (l1 ++ (src, dst) :: l2) t =
        (.err (.io m), t ++ l1.map (fun pr => .copy pr.1 pr.2) ++ [.copy src dst])) ∧
    (∀ env : Env, stage3Fails env →
      hasCompileSpawn (main env []).2 = false ∧ hasRunSpawn (main env []).2 = false) :=
  ⟨copyAll_fail, gate3⟩

/-- Witness for the amended C6: a concrete second-copy failure stops the
staging after the first copy, and a concrete failing artifact set never
reaches the compiler. -/
theorem C6_stager_order_first_fail_witness :
    copyAll envPB ([(pA, pA)] ++ (pB, pB) :: [(pA, pA)]) [] =
      (.err (.io "boom"),
        [] ++ [(pA, pA)].map (fun pr => Event.copy pr.1 pr.2) ++ [.copy pB pB]) ∧
    (hasCompileSpawn (main envAllCopyFail []).2 = false ∧
      hasRunSpawn (main envAllCopyFail []).2 = false) :=
  ⟨C6_stager_order_first_fail.1 envPB [(pA, pA)] pB pB [(pA, pA)] "boom" []
      (by intro pr hpr; simp only [List.mem_singleton] at hpr; subst hpr; rfl) rfl,
   C6_stager_order_first_fail.2 envAllCopyFail
      ⟨(firstCopySrc, firstCopyDst), by decide, by simp [envAllCopyFail, okEnv]⟩⟩

/-- Claim C7: the Dependency Builder invokes the toolchain with arguments
`build --package <name>`, adds `--features` with the comma-joined feature
list exactly when the feature set is non-empty, succeeds exactly when the
process exits with code 0, and on a non-zero exit fails with an error
naming the package. -/
theorem C7_dependency_build (env : Env) (pkg : String) (feats : List String)
    (c : String) (t : List Event) (hc : env.cargo = some c) :
    (build_package env pkg feats t).2 =
      t ++ [.spawnBuild c (buildPackageArgs pkg feats)] ∧
    (feats = [] → buildPackageArgs pkg feats = ["build", "--package", pkg]) ∧
    (feats ≠ [] → buildPackageArgs pkg feats =
      ["build", "--package", pkg, "--features", String.intercalate "," feats]) ∧
    ((build_package env pkg feats t).1 = .ok () ↔
      env.statusResult c (buildPackageArgs pkg feats) none = .ok 0) ∧
    (∀ n, env.statusResult c (buildPackageArgs pkg feats) none = .ok (n + 1) →
      (build_package env pkg feats t).1 =
        .err (.msg ("failed to compile " ++ pkg))) := by
  refine ⟨?_, ?_, ?_, ?_, ?_⟩
  · show (build_package env pkg feats t).2 = _
    simp only [build_package, hc]
    exact trace_step_opGen _ _ _ (fun a t => ite_res_snd _ _ _ t) t
  · intro hf
    subst hf
    simp [buildPackageArgs]
  · intro hf
    cases feats with
    | nil => exact absurd rfl hf
    | cons a l => simp [buildPackageArgs]
  · rcases hs : env.statusResult c (buildPackageArgs pkg feats) none with m | n
    · simp [build_package, hc, opSpawnBuild, opGen, ofExcept, hs]
    · cases n with
      | zero => simp [build_package, hc, opSpawnBuild, opGen, ofExcept, hs]
      | succ k => simp [build_package, hc, opSpawnBuild, opGen, ofExcept, hs]
  · intro n hs
    simp [build_package, hc, opSpawnBuild, opGen, ofExcept, hs]

/-- Witness for C7 at a concrete package and feature list. -/
theorem C7_dependency_build_witness :
    (build_package okEnv "demo" ["f1"] []).2 =
      [] ++ [.spawnBuild "cargo" (buildPackageArgs "demo" ["f1"])] ∧
    ((["f1"] : List String) = [] →
      buildPackageArgs "demo" ["f1"] = ["build", "--package", "demo"]) ∧
    ((["f1"] : List String) ≠ [] → buildPackageArgs "demo" ["f1"] =
      ["build", "--package", "demo", "--features", String.intercalate "," ["f1"]]) ∧
    ((build_package okEnv "demo" ["f1"] []).1 = .ok () ↔
      okEnv.statusResult "cargo" (buildPackageArgs "demo" ["f1"]) none = .ok 0) ∧
    (∀ n, okEnv.statusResult "cargo" (buildPackageArgs "demo" ["f1"]) none = .ok (n + 1) →
      (build_package okEnv "demo" ["f1"] []).1 =
        .err (.msg ("failed to compile " ++ "demo"))) :=
  C7_dependency_build okEnv "demo" ["f1"] "cargo" [] rfl

/-- Claim C8: the compiler subprocess's working directory is set to the
parent directory of the first source path of the compile unit. -/
theorem C8_compile_workdir (env : Env) (root p0 : Path) (ps : List Path)
    (nm : String) (extra : List String) (t : List Event) (d : Path)
    (hp : p0.parent = some d) :
    (build_cxx_node env root (p0 :: ps) nm extra t).2 =
      t ++ [.spawnCompile "clang++" (clangArgs env.os root (p0 :: ps) nm extra)
        (some d)] := by
  rw [← hp]
  show (build_cxx_node env root (p0 :: ps) nm extra t).2 = _
  simp only [build_cxx_node]
  exact trace_step_opGen _ _ _ (fun a t => ite_res_snd _ _ _ t) t

/-- Witness for C8 at a concrete two-component source path. -/
theorem C8_compile_workdir_witness :
    (build_cxx_node okEnv pA [(⟨true, ["a", "b.cc"]⟩ : Path)] "n" [] []).2 =
      [] ++ [.spawnCompile "clang++"
        (clangArgs okEnv.os pA [(⟨true, ["a", "b.cc"]⟩ : Path)] "n" [])
        (some ⟨true, ["a"]⟩)] :=
  C8_compile_workdir okEnv pA ⟨true, ["a", "b.cc"]⟩ [] "n" [] [] ⟨true, ["a"]⟩ rfl

/-- Counterexample to claim C9: the Windows early exit logs at error
level — the run emits no warning-level notice before returning
success. -/
theorem C9_counterexample :
    (main envWin []).1 = .ok () ∧
    (main envWin []).2 =
      [.setTracing "c++-ros2-dataflow-exaple", .log .error windowsLogMsg] ∧
    hasWarnLog (main envWin []).2 = false := ⟨rfl, rfl, rfl⟩

/-- Claim C9 as amended: on the excepted platform the early exit emits an
error-level notice before returning success, and it is the sole non-error
early exit — every successful run either is the platform skip or reaches
the Execution Handoff spawn. -/
theorem C9_error_notice_sole_success_exit :
    (∀ env : Env, env.os = .windows → env.tracingResult = .ok () →
      (main env []).1 = .ok () ∧
      (main env []).2 =
        [.setTracing "c++-ros2-dataflow-exaple", .log .error windowsLogMsg]) ∧
    (∀ env : Env, (main env []).1 = .ok () →
      env.os = .windows ∨ hasRunSpawn (main env []).2 = true) := by
  constructor
  · intro env hos htr
    rw [main_windows env hos htr]
    exact ⟨rfl, rfl⟩
  · exact main_ok_windows_or_ran

/-- Witness for the amended C9 at the concrete Windows and all-success
environments. -/
theorem C9_error_notice_sole_success_exit_witness :
    ((main envWin []).1 = .ok () ∧
      (main envWin []).2 =
        [.setTracing "c++-ros2-dataflow-exaple", .log .error windowsLogMsg]) ∧
    (okEnv.os = .windows ∨ hasRunSpawn (main okEnv []).2 = true) :=
  ⟨C9_error_notice_sole_success_exit.1 envWin rfl rfl,
   C9_error_notice_sole_success_exit.2 okEnv rfl⟩

/-- Claim C10: the native-compile operation unconditionally indexes the
first source path: on an empty source list it panics with the
out-of-bounds message, on a non-empty list it never panics, and when the
first source path has no parent directory no working directory is set for
the compiler subprocess. -/
theorem C10_first_source_indexing :
    (∀ (env : Env) (root : Path) (nm : String) (extra : List String) (t : List Event),
      build_cxx_node env root [] nm extra t = (.panicked indexPanicMsg, t)) ∧
    (∀ (env : Env) (root p0 : Path) (ps : List Path) (nm : String)
      (extra : List String) (t : List Event) (m : String),
      (build_cxx_node env root (p0 :: ps) nm extra t).1 ≠ .panicked m) ∧
    (∀ (env : Env) (root p0 : Path) (ps : List Path) (nm : String)
      (extra : List String) (t : List Event), p0.parent = none →
      (build_cxx_node env root (p0 :: ps) nm extra t).2 =
        t ++ [.spawnCompile "clang++" (clangArgs env.os root (p0 :: ps) nm extra)
          none]) := by
  refine ⟨fun env root nm extra t => rfl, ?_, ?_⟩
  · intro env root p0 ps nm extra t m
    simp only [build_cxx_node]
    rcases hs : env.statusResult "clang++" (clangArgs env.os root (p0 :: ps) nm extra)
        p0.parent with m2 | n
    · simp [opSpawnCompile, opGen, ofExcept, hs]
    · simp only [opSpawnCompile, opGen, ofExcept, hs, step_ok]
      split <;> simp
  · intro env root p0 ps nm extra t hp
    rw [← hp]
    show (build_cxx_node env root (p0 :: ps) nm extra t).2 = _
    simp only [build_cxx_node]
    exact trace_step_opGen _ _ _ (fun a t => ite_res_snd _ _ _ t) t

/-- Witness for C10: the empty-list panic, a non-panicking non-empty
call, and a parentless first source path leaving the working directory
unset, all at concrete inputs. -/
theorem C10_first_source_indexing_witness :
    build_cxx_node okEnv pA [] "n" [] [] = (.panicked indexPanicMsg, []) ∧
    (build_cxx_node okEnv pA [pB] "n" [] []).1 ≠ .panicked "boom" ∧
    (build_cxx_node okEnv pA [(⟨true, []⟩ : Path)] "n" [] []).2 =
      [] ++ [.spawnCompile "clang++" (clangArgs okEnv.os pA [(⟨true, []⟩ : Path)] "n" [])
        none] :=
  ⟨C10_first_source_indexing.1 okEnv pA "n" [] [],
   C10_first_source_indexing.2.1 okEnv pA pB [] "n" [] [] "boom",
   C10_first_source_indexing.2.2 okEnv pA ⟨true, []⟩ [] "n" [] [] rfl⟩

end RunPipeline
